import Mathlib

/-!
Shallow embedding of `src/libfdx/yamldecode.py` (the FDX frame synchronizer
and frame decoder) and proofs about it.

Conventions of the embedding:
* a Python `bytes` value is a `List Nat`, one entry per byte (each < 256 in
  all inputs of interest);
* a hex-encoded string (4 bits per character) is a `List Nat`, one entry per
  hex character, holding that character-digit value (0..15);
* a `bitstring.BitArray` is a `List Bool`, most significant bit of each byte
  first, exactly the bit order `BitArray(hex=...)` produces;
* a Python function that can raise is embedded as a function into `Except`
  or into an explicit result type with one constructor per observable
  outcome (raised exception kind, returned value, ...).
-/

namespace FDX

/-! ### Hex utilities (binascii.hexlify, bytes.hex) -/

/-- Value of a hex digit as the character it prints as (0-9, a-f). -/
def hexDigitChar (n : Nat) : Char :=
  if n < 10 then Char.ofNat (48 + n) else Char.ofNat (87 + n)

/-- Two lowercase hex characters of one byte, as `bytes.hex` / `hexlify`
produce for a single byte. -/
def byteHex (b : Nat) : String :=
  String.mk [hexDigitChar (b / 16 % 16), hexDigitChar (b % 16)]

/-- `binascii.hexlify(bs)` / `bs.hex()`: lowercase hex string of a byte
sequence. -/
def hexlify (bs : List Nat) : String :=
  String.join (bs.map byteHex)

/-- The four bits of one hex character value, most significant first. This is
the bit order `BitArray(hex=...)` assigns to each hex character. -/
def nibbleBits (n : Nat) : List Bool :=
  [n / 8 % 2 == 1, n / 4 % 2 == 1, n / 2 % 2 == 1, n % 2 == 1]

/-- `BitArray(hex=s)`: the bit sequence denoted by a hex string, 4 bits per
character. -/
def nibblesToBits (ns : List Nat) : List Bool :=
  (ns.map nibbleBits).flatten

/-! ### checklength (yamldecode.py lines 64-75)

```
def checklength(pdu, speclen):
    "pdu is hex encoded, 4 bits per char."
    ...
    if speclen is not None:
        if len(pdu)/2 != speclen:
            raise DataError("mtype=0x%s: Incorrect length %s (got %s) body: %s"
                            % (pdu[:3*2], speclen, len(pdu)/2, pdu[3*2:]))
    return BitArray(hex=pdu[3*2:-1*2])
```

`pdu` is the hex character list. The function first executes
`assert len(pdu) % 2 == 0` (line 69; the two preceding asserts check only
the Python types of the arguments, which the embedding's types carry), so
an odd-length pdu raises `AssertionError` before anything else. The raised
`DataError` message interpolates `pdu[:6]` (the 3-byte type in hex),
`speclen`, `len(pdu)/2` and `pdu[6:]`; we carry those four components in a
structure, and the two exception kinds in a sum. Note the comparison is
`len(pdu)/2 != speclen`, i.e. on the TOTAL decoded byte count of `pdu`
(real division: for any length, `len(pdu)/2 == speclen` iff
`len(pdu) = 2*speclen`). The returned value is `BitArray(hex=pdu[6:-2])`:
the hex characters with the first 3 bytes (6 characters) and the last byte
(2 characters) stripped, viewed as bits; `pdu[6:-2]` is the characters at
indices `6 <= i < len(pdu)-2`, which is `(pdu.take (pdu.length-2)).drop 6`
(both empty when `len(pdu)-2 <= 6`, as in Python). -/

/-- Components interpolated into the `DataError` message raised by
`checklength`: `pdu[:6]`, `speclen`, `len(pdu)/2`, `pdu[6:]`. -/
structure LengthError where
  mtype : List Nat
  expected : Nat
  got : Nat
  body : List Nat
deriving DecidableEq

/-- An exception `checklength` can raise: the `AssertionError` of the
failed assert at line 69, or the `DataError` of line 73. -/
inductive ChecklengthErr
  | assertionError (cond : String)
  | dataError (e : LengthError)
deriving DecidableEq

/-- `checklength(pdu, speclen)` from yamldecode.py lines 64-75, including
the `assert len(pdu) % 2 == 0` of line 69. -/
def checklength (pdu : List Nat) (speclen : Option Nat) : Except ChecklengthErr (List Bool) :=
  if pdu.length % 2 ≠ 0 then
    Except.error (ChecklengthErr.assertionError "len(pdu) % 2 == 0")
  else
    match speclen with
    | some n =>
        if pdu.length ≠ 2 * n then
          Except.error (ChecklengthErr.dataError ⟨pdu.take 6, n, pdu.length / 2, pdu.drop 6⟩)
        else
          Except.ok (nibblesToBits ((pdu.take (pdu.length - 2)).drop 6))
    | none => Except.ok (nibblesToBits ((pdu.take (pdu.length - 2)).drop 6))

/-! ### intdecoder (yamldecode.py lines 77-89)

```
def intdecoder(body, width=8, signed=False):
    assert type(body) == BitArray
    assert width % 8 == 0
    assert width in [8, 16]  # for now, due to fmt.
    ...
    s = []
    for idx in range(0, body.len, width):
        value = body[idx:idx+width]
        s += [fmt % (value.intle if signed else value.uintle)]
    return [("ints", " ".join(s)), ('strbody', body.hex)]
```

The loop slices `body` into consecutive windows `body[idx:idx+width]` for
`idx = 0, width, 2*width, ...` and interprets each window little-endian,
unsigned (`uintle`) or two's-complement signed (`intle`). We embed the
window values as integers (the Python code then zero-pads them into a
string; the formatting is presentation only). A failed `assert` is embedded
as `Except.error` carrying the asserted condition. -/

/-- Unsigned value of a bit list, most significant bit first (one byte when
the list has 8 entries). -/
def byteVal (bits : List Bool) : Nat :=
  bits.foldl (fun a b => 2 * a + (if b then 1 else 0)) 0

/-- Consecutive slices `l[idx:idx+width]` for `idx = 0, width, 2*width, ...`,
exactly the windows the `for idx in range(0, body.len, width)` loop visits. -/
def bitWindows (width : Nat) (l : List Bool) : List (List Bool) :=
  if h : width = 0 ∨ l = [] then []
  else l.take width :: bitWindows width (l.drop width)
termination_by l.length
decreasing_by
  have h1 : width ≠ 0 := fun hx => h (Or.inl hx)
  have h2 : l ≠ [] := fun hx => h (Or.inr hx)
  have h3 : 0 < l.length := List.length_pos.mpr h2
  simp only [List.length_drop]
  omega

/-- `BitArray.uintle`: little-endian unsigned interpretation. The first byte
of the window is the least significant. -/
def uintle (bits : List Bool) : Nat :=
  ((bitWindows 8 bits).reverse).foldl (fun a b => 256 * a + byteVal b) 0

/-- `BitArray.intle`: little-endian two's-complement signed interpretation. -/
def intle (bits : List Bool) : Int :=
  let u := uintle bits
  if 2 * u < 2 ^ bits.length then (u : Int) else (u : Int) - 2 ^ bits.length

/-- One window's value, `value.intle if signed else value.uintle`. -/
def windowValue (signed : Bool) (w : List Bool) : Int :=
  if signed then intle w else (uintle w : Int)

/-- `intdecoder(body, width, signed)` from yamldecode.py lines 77-89, with
the two `assert` statements on `width` embedded as error outcomes. -/
def intdecoder (body : List Bool) (width : Nat) (signed : Bool) : Except String (List Int) :=
  if width % 8 ≠ 0 then Except.error "AssertionError: width % 8 == 0"
  else if ¬ (width = 8 ∨ width = 16) then Except.error "AssertionError: width in [8, 16]"
  else Except.ok ((bitWindows width body).map (windowValue signed))

/-! Unfolding and structural lemmas for `bitWindows`. -/

theorem bitWindows_eq (width : Nat) (l : List Bool) :
    bitWindows width l =
      if width = 0 ∨ l = [] then []
      else l.take width :: bitWindows width (l.drop width) := by
  rw [bitWindows]
  by_cases h : width = 0 ∨ l = []
  · simp [h]
  · simp [h]

theorem bitWindows_flatten (width : Nat) (hw : width ≠ 0) (l : List Bool) :
    (bitWindows width l).flatten = l := by
  generalize hn : l.length = n
  induction n using Nat.strong_induction_on generalizing l with
  | _ n ih =>
    rw [bitWindows_eq]
    by_cases hnil : l = []
    · simp [hnil]
    · rw [if_neg (by simp [hw, hnil])]
      have hpos : 0 < l.length := List.length_pos.mpr hnil
      have hlt : (l.drop width).length < n := by
        simp only [List.length_drop]
        omega
      rw [List.flatten_cons, ih _ hlt (l.drop width) rfl]
      exact List.take_append_drop width l

theorem bitWindows_width (width : Nat) (hw : width ≠ 0) (l : List Bool) :
    width ∣ l.length → ∀ w ∈ bitWindows width l, w.length = width := by
  generalize hn : l.length = n
  induction n using Nat.strong_induction_on generalizing l with
  | _ n ih =>
    intro hdvd w hwmem
    rw [bitWindows_eq] at hwmem
    by_cases hnil : l = []
    · simp [hnil] at hwmem
    · rw [if_neg (by simp [hw, hnil])] at hwmem
      have hpos : 0 < l.length := List.length_pos.mpr hnil
      have hle : width ≤ l.length := by
        have := Nat.le_of_dvd (hn ▸ hpos) hdvd
        omega
      rcases List.mem_cons.mp hwmem with hhead | htail
      · subst hhead
        simp [List.length_take]
        omega
      · have hlt : (l.drop width).length < n := by
          simp only [List.length_drop]
          omega
        have hdvd2 : width ∣ (l.drop width).length := by
          simp only [List.length_drop]
          exact Nat.dvd_sub' (hn ▸ hdvd) dvd_rfl
        exact ih _ hlt (l.drop width) rfl hdvd2 w htail

/-! ### Python name resolution in yamldecode.py

Two statements of the source refer to names that are bound in no scope
Python consults (local scope, enclosing function scopes — of which the
methods have none; a class body is not an enclosing scope for its methods —
module globals, builtins):

* line 125, `for framehdr, framelen in headers:` — `headers` is only a class
  attribute of `FDXProcess` (line 103), never a local of `lineprotocol` nor a
  module-level binding;
* line 173, `keys = handler(message)` — `message` is assigned nowhere in the
  file.

We record the module-level bindings of yamldecode.py and the local names of
each method (every name the method assigns, plus its parameters), and decide
resolution of a bare name by membership, exactly as Python does for these
functions (neither name is a builtin). -/

/-- Module-level bindings of yamldecode.py: the names introduced by the
imports of lines 22-38 and by its top-level def and class statements. -/
def moduleNames : List String :=
  ["print_function", "doctest", "json", "logging", "unittest", "hexlify",
   "datetime", "Decimal", "degrees", "radians", "isnan", "pprint", "argv",
   "stdin", "stdout", "stderr", "sleep", "time", "exists", "LatLon",
   "Latitude", "Longitude", "BitArray", "DataError", "FailedAssumptionError",
   "_b", "fahr2celcius", "feet2meter", "checklength", "intdecoder",
   "FDXFrame", "FDXProcess", "FDXProcess_frameTest"]

/-- Local names of `FDXProcess.lineprotocol` (lines 111-146): its parameters
and every name the method body assigns. -/
def lineprotocolLocalNames : List String :=
  ["self", "reader", "buf", "frameidx", "framelen", "framehdr", "startidx"]

/-- Local names of `FDXProcess.decode_frame` (lines 148-175): its parameters
and every name the method body assigns. -/
def decodeFrameLocalNames : List String :=
  ["self", "frame", "fmt", "printmsg", "mtype", "body", "handler", "keys"]

/-- Whether a bare name inside a method resolves: it must be a local name of
the method or a module-level binding (none of the names we consult are
Python builtins). -/
def pyResolves (localNames : List String) (n : String) : Bool :=
  localNames.contains n || moduleNames.contains n

/-! ### FDXProcess.lineprotocol (yamldecode.py lines 111-146)

```
def lineprotocol(self, reader):
    buf = bytes()
    while True:
        buf += reader(100)
        print("buf is: %s" % hexlify(buf))
        frameidx = False
        framelen = 0

        for framehdr, framelen in headers:
            ...
```

The generator appends the next chunk to `buf`, prints, initializes
`frameidx`/`framelen`, and then executes the `for` statement, whose first
action is evaluating the iterable — the bare name `headers`. That name
resolves in no scope (see `pyResolves`), so every iteration of the loop
raises `NameError` there, before any scanning, before any `yield`. We embed
one iteration of the `while True` body as a function from the current buffer
and the newly read chunk to an outcome: either an exception was raised
(with the events yielded earlier in the iteration — always none here) or the
iteration completed, yielding events and leaving a new buffer. -/

/-- A value the `lineprotocol` generator can yield: a span of junk bytes or
a recognized frame (sentinel bytes stripped). -/
inductive LPEvent
  | junkSpan (bs : List Nat)
  | frame (bs : List Nat)
deriving DecidableEq

/-- Outcome of one iteration of the `while True` body of `lineprotocol`. -/
inductive LPOutcome
  | raised (err : String) (emitted : List LPEvent)
  | completed (emitted : List LPEvent) (buf : List Nat)
deriving DecidableEq

/-- One iteration of the `while True` body of `lineprotocol` (lines
120-146): append the chunk read from `reader`, then execute the `for`
statement of line 125, whose iterable is the bare name `headers`. The
`completed` branch is unreachable: `pyResolves lineprotocolLocalNames
"headers"` computes to `false`, so the iteration always raises the
`NameError` with nothing yielded. -/
def lineprotocolLoopBody (buf chunk : List Nat) : LPOutcome :=
  let buf2 := buf ++ chunk
  if pyResolves lineprotocolLocalNames "headers" then
    LPOutcome.completed [] buf2
  else
    LPOutcome.raised "NameError: name headers is not defined" []

/-- The events an iteration outcome made observable. -/
def emittedOf : LPOutcome → List LPEvent
  | LPOutcome.raised _ es => es
  | LPOutcome.completed es _ => es

/-- The bytes an event accounts for, with the stripped sentinel bytes
reinserted around a frame (spec section 8, first property). -/
def eventBytes : LPEvent → List Nat
  | LPEvent.junkSpan bs => bs
  | LPEvent.frame bs => 0x81 :: (bs ++ [0x81])

/-- Concatenation of the bytes of all events of an outcome. -/
def emittedBytes (o : LPOutcome) : List Nat :=
  ((emittedOf o).map eventBytes).flatten

/-! ### FDXProcess.decode_frame (yamldecode.py lines 148-175)

```
def decode_frame(self, frame):
    ...
    if len(frame) < 4:
        raise DataError("short message <4 bytes: %s" % fmt(frame))

    mtype = hexlify(frame[:3])
    body = frame[3:]
    ...
    handler = self.handlers.get(mtype)
    if not handler:
        logging.warning("No handler for %i byte 0x%s" % (len(frame), mtype))
        return None

    keys = handler(message)
    assert len(keys) > 0
    return dict(keys)
```

Embedded observable outcomes: the raised `DataError` for short frames; the
warn-and-return-None path when the registry has no entry for the type; the
`NameError` raised while evaluating the argument of the handler call at line
173 (the bare name `message` resolves in no scope, see `pyResolves`); and —
behind a guard that computes to `false` — the outcomes of lines 173-175 as
they would be if the name resolved (handler applied, empty result an
assertion failure, otherwise the dict of pairs). The handler registry
`FDXProcess.handlers` is a class-level dict, empty in the source and filled
externally; we pass it as an association list from hex type identifier to
handler function. -/

/-- A decoded field value: the not-a-number sentinel, a number (exact
rational), or a string. -/
inductive FieldValue
  | nan
  | num (q : ℚ)
  | str (s : String)
deriving DecidableEq

/-- A per-type field-layout handler: body bytes to ordered
(field name, value) pairs. -/
def Handler : Type := List Nat → List (String × FieldValue)

/-- Observable outcome of `FDXProcess.decode_frame`. -/
inductive DecodeResult
  | dataError (msg : String)
  | noHandler (nbytes : Nat) (mtype : String)
  | nameError (n : String)
  | assertFailed (cond : String)
  | decoded (fields : List (String × FieldValue))

/-- `dict.get` on the handler registry, keyed by the hex type identifier. -/
def lookupHandler : List (String × Handler) → String → Option Handler
  | [], _ => none
  | (k, h) :: rest, key => if k = key then some h else lookupHandler rest key

/-- The message of the `DataError` raised for short frames (line 160);
`fmt(frame)` is `frame.hex()`. -/
def shortFrameMsg (frame : List Nat) : String :=
  "short message <4 bytes: " ++ hexlify frame

/-- `FDXProcess.decode_frame` (lines 148-175). The branch behind
`pyResolves decodeFrameLocalNames "message"` models lines 173-175 as they
would run if the bare name `message` denoted the frame body; the guard
computes to `false`, so the function in fact reaches `nameError` whenever a
handler is registered for the type. -/
def decode_frame (handlers : List (String × Handler)) (frame : List Nat) : DecodeResult :=
  if frame.length < 4 then DecodeResult.dataError (shortFrameMsg frame)
  else
    let mtype := hexlify (frame.take 3)
    let body := frame.drop 3
    match lookupHandler handlers mtype with
    | none => DecodeResult.noHandler frame.length mtype
    | some h =>
        if pyResolves decodeFrameLocalNames "message" then
          let keys := h body
          if keys.length = 0 then DecodeResult.assertFailed "len(keys) > 0"
          else DecodeResult.decoded keys
        else DecodeResult.nameError "message"

/-! ### The gpspos handler (spec-modelled) -/

/-- First matching value for a field name in an ordered (name, value) list,
the lookup `dict(keys)[name]` performs for the names at hand (each name
occurs at most once in the handlers modelled here). -/
def lookupField : List (String × FieldValue) → String → Option FieldValue
  | [], _ => none
  | (k, v) :: rest, key => if k = key then some v else lookupField rest key

/-- Modelled from the spec: the GPS-position (`gpspos`) field-layout handler
is code of this repository that is not under src/ — the registry
`FDXProcess.handlers` in yamldecode.py is empty and only the unit test
`FDXProcess_frameTest.test_gps_position` references the handler's
behaviour. Spec section 4.3: decimal-degree reconstruction from raw GPS
integer encodings producing a latitude/longitude pair, where an all-zero
"no fix" raw pattern maps to a not-a-number sentinel for BOTH coordinates
rather than a decoded position. The layout of the input body and the
reconstruction are fixed by the literal cases of spec section 8: body
`08 28 00 00 00 00 00 00 10 00 10` (position bytes, indices 2-7, all zero)
maps to `mdesc="gpspos"` with `lat` and `lon` both not-a-number, and body
`08 28 3b 21 c3 0a ff 8e e0 00 42` maps to latitude 59.83255 degrees
(degrees byte 0x3b = 59, then a 16-bit little-endian count of thousandths
of minutes 0xc321 = 49953) and longitude 10.6101167 degrees (0x0a = 10,
0x8eff = 36607 thousandths of minutes). -/
def gpsposHandler (body : List Nat) : List (String × FieldValue) :=
  let pos := (body.drop 2).take 6
  if pos.all (· == 0) then
    [("mdesc", FieldValue.str "gpspos"),
     ("lat", FieldValue.nan),
     ("lon", FieldValue.nan)]
  else
    [("mdesc", FieldValue.str "gpspos"),
     ("lat", FieldValue.num
        ((body.getD 2 0 : ℚ) + (body.getD 3 0 + 256 * body.getD 4 0 : ℚ) / 60000)),
     ("lon", FieldValue.num
        ((body.getD 5 0 : ℚ) + (body.getD 6 0 + 256 * body.getD 7 0 : ℚ) / 60000))]

/-! ### Concrete inputs used by the theorems below -/

/-- One well-formed frame on the wire for the registered header
`(0x010402, body length 6)`: sentinel, 3-byte type, 6-byte body, sentinel. -/
def sampleStream : List Nat :=
  [0x81, 0x01, 0x04, 0x02, 0x01, 0x02, 0x03, 0x04, 0x05, 0x06, 0x81]

/-- Hex characters of the 8-byte pdu `81 01 04 02 00 00 00 81`. -/
def pduC2 : List Nat :=
  [8, 1, 0, 1, 0, 4, 0, 2, 0, 0, 0, 0, 0, 0, 8, 1]

/-- The gpstime frame of `FDXProcess_frameTest.test_simple`
(`24 07 23 0f 1b 17 11 08 18 00 02 81`). -/
def gpstimeFrame : List Nat :=
  [0x24, 0x07, 0x23, 0x0f, 0x1b, 0x17, 0x11, 0x08, 0x18, 0x00, 0x02, 0x81]

/-- The "no fix" gpspos input body of spec section 8:
`08 28 00 00 00 00 00 00 10 00 10`. -/
def gpsposNoFixBody : List Nat :=
  [0x08, 0x28, 0x00, 0x00, 0x00, 0x00, 0x00, 0x00, 0x10, 0x00, 0x10]

/-- A 16-bit body (two bytes, 0x81 and 0xc3) used to instantiate the
intdecoder theorem. -/
def sampleBits : List Bool :=
  [true, false, false, false, false, false, false, true,
   true, true, false, false, false, false, true, true]

/-! ### Claim theorems -/

/-- C2, counterexample: the claim says `checklength(pdu, speclen)` raises
`DataError` iff the decoded byte length EXCLUDING the 3-byte header and the
trailing sentinel differs from `speclen`. For the 8-byte pdu
`81 01 04 02 00 00 00 81` and `speclen = 4`, that body length is
`8 - 3 - 1 = 4 = speclen`, so by the claim no error should be raised — yet
the code raises, because it compares the TOTAL byte count `len(pdu)/2 = 8`
against `speclen`. -/
theorem checklength_bodylen_counterexample :
    pduC2.length / 2 - 3 - 1 = 4 ∧
    checklength pduC2 (some 4) =
      Except.error (ChecklengthErr.dataError
        ⟨pduC2.take 6, 4, pduC2.length / 2, pduC2.drop 6⟩) := by
  constructor
  · decide
  · rfl

/-- C2, amended: for every even-length hex-encoded pdu, `checklength pdu
(some n)` raises `DataError` iff the TOTAL decoded byte count `len(pdu)/2`
differs from `n`; the error carries the 3-byte type in hex (`pdu[:6]`), the
expected count `n` and the actual total byte count `len(pdu)/2`; when the
counts agree it returns the bit-level view of the pdu with the 3 header
bytes and the trailing sentinel byte stripped (`BitArray(hex=pdu[6:-2])`). -/
theorem checklength_total_length (pdu : List Nat) (n : Nat)
    (heven : pdu.length % 2 = 0) :
    (pdu.length ≠ 2 * n →
      checklength pdu (some n) =
        Except.error (ChecklengthErr.dataError
          ⟨pdu.take 6, n, pdu.length / 2, pdu.drop 6⟩)) ∧
    (pdu.length = 2 * n →
      checklength pdu (some n) =
        Except.ok (nibblesToBits ((pdu.take (pdu.length - 2)).drop 6))) := by
  constructor
  · intro h
    simp [checklength, heven, h]
  · intro h
    simp [checklength, heven, h]

/-- C2, witness for `checklength_total_length` at the 8-byte pdu
`81 01 04 02 00 00 00 81`: with `speclen = 4` it errors with the expected
components, with `speclen = 8` it returns the stripped bit view. -/
theorem checklength_total_length_witness :
    (checklength pduC2 (some 4) =
      Except.error (ChecklengthErr.dataError
        ⟨pduC2.take 6, 4, pduC2.length / 2, pduC2.drop 6⟩)) ∧
    (checklength pduC2 (some 8) =
      Except.ok (nibblesToBits ((pduC2.take (pduC2.length - 2)).drop 6))) :=
  ⟨(checklength_total_length pduC2 4 (by decide)).1 (by decide),
   (checklength_total_length pduC2 8 (by decide)).2 (by decide)⟩

/-- C10: for every even-length hex-encoded pdu (the domain the assert of
line 69 admits), `checklength pdu none` performs no length validation: it
raises nothing — in particular no `DataError` — and unconditionally returns
the bit-level view of the pdu with the first 3 bytes and the last byte
stripped, whatever the length of the pdu. -/
theorem checklength_none_no_validation (pdu : List Nat)
    (heven : pdu.length % 2 = 0) :
    checklength pdu none =
      Except.ok (nibblesToBits ((pdu.take (pdu.length - 2)).drop 6)) ∧
    ∀ e, checklength pdu none ≠ Except.error e := by
  refine ⟨by simp [checklength, heven], ?_⟩
  intro e h
  simp [checklength, heven] at h

/-- C10, witness for `checklength_none_no_validation` at the 2-byte pdu
`8 1 0 0` (hex `8100`, total byte count 2, matching no spec length). -/
theorem checklength_none_no_validation_witness :
    checklength [8, 1, 0, 0] none =
      Except.ok
        (nibblesToBits (([8, 1, 0, 0].take ([8, 1, 0, 0].length - 2)).drop 6)) :=
  (checklength_none_no_validation [8, 1, 0, 0] (by decide)).1

/-- C8: `intdecoder` called with a width other than 8 or 16 fails with an
assertion failure (unsupported format), never returning truncated values;
with width 8 or 16 it succeeds, returning one little-endian value per
window, and the windows partition the body: consecutive, non-overlapping
(their concatenation in order is exactly the body) and — whenever the body
splits evenly, as every byte-aligned body of the catalog does — each window
is exactly `width` bits wide. -/
theorem intdecoder_width_spec (body : List Bool) (width : Nat) (signed : Bool) :
    (¬ (width = 8 ∨ width = 16) →
      ∃ e, intdecoder body width signed = Except.error e) ∧
    ((width = 8 ∨ width = 16) →
      intdecoder body width signed =
        Except.ok ((bitWindows width body).map (windowValue signed)) ∧
      (bitWindows width body).flatten = body ∧
      (width ∣ body.length → ∀ w ∈ bitWindows width body, w.length = width)) := by
  constructor
  · intro h
    by_cases h8 : width % 8 = 0
    · refine ⟨"AssertionError: width in [8, 16]", ?_⟩
      simp [intdecoder, h8, h]
    · refine ⟨"AssertionError: width % 8 == 0", ?_⟩
      simp [intdecoder, h8]
  · intro h
    have h8 : width % 8 = 0 := by rcases h with h | h <;> simp [h]
    have hw : width ≠ 0 := by rcases h with h | h <;> simp [h]
    exact ⟨by simp [intdecoder, h8, h],
           bitWindows_flatten width hw body,
           bitWindows_width width hw body⟩

/-- C8, witness for `intdecoder_width_spec` on the two-byte body
`sampleBits`: width 12 is rejected with an assertion failure, width 8
succeeds and its windows concatenate back to the body, each 8 bits wide. -/
theorem intdecoder_width_spec_witness :
    (∃ e, intdecoder sampleBits 12 false = Except.error e) ∧
    (intdecoder sampleBits 8 false =
      Except.ok ((bitWindows 8 sampleBits).map (windowValue false)) ∧
     (bitWindows 8 sampleBits).flatten = sampleBits ∧
     (8 ∣ sampleBits.length → ∀ w ∈ bitWindows 8 sampleBits, w.length = 8)) :=
  ⟨(intdecoder_width_spec sampleBits 12 false).1 (by decide),
   (intdecoder_width_spec sampleBits 8 false).2 (Or.inl rfl)⟩

/-- C3: for every frame of fewer than 4 bytes, `decode_frame` raises
`DataError` with the short-message text; the outcome is the same whatever
the handler registry holds (no handler is consulted), and no decoded
fields are ever produced for such a frame. -/
theorem decode_frame_short (handlers : List (String × Handler))
    (frame : List Nat) (h : frame.length < 4) :
    decode_frame handlers frame = DecodeResult.dataError (shortFrameMsg frame) ∧
    (∀ handlers2 : List (String × Handler),
      decode_frame handlers2 frame = DecodeResult.dataError (shortFrameMsg frame)) ∧
    (∀ fields, decode_frame handlers frame ≠ DecodeResult.decoded fields) := by
  refine ⟨?_, fun handlers2 => ?_, fun fields => ?_⟩ <;> simp [decode_frame, h]

/-- C3, witness for `decode_frame_short` at the 1-byte frame `81` of
`FDXProcess_frameTest.test_simple`, with an empty registry. -/
theorem decode_frame_short_witness :
    decode_frame [] [0x81] = DecodeResult.dataError (shortFrameMsg [0x81]) :=
  (decode_frame_short [] [0x81] (by decide)).1

/-- C4: the claim says a frame of at least 4 bytes whose type has a
registered handler makes `decode_frame` invoke the handler with the body
and return its pairs as a dictionary. The code instead evaluates
`handler(message)` where `message` is a name bound in no scope, so the call
raises `NameError` before the handler runs, for EVERY such frame, and no
decoded dictionary is ever produced. -/
theorem decode_frame_handler_namerror (handlers : List (String × Handler))
    (frame : List Nat) (hfn : Handler) (h4 : ¬ frame.length < 4)
    (hsome : lookupHandler handlers (hexlify (frame.take 3)) = some hfn) :
    decode_frame handlers frame = DecodeResult.nameError "message" ∧
    (∀ fields, decode_frame handlers frame ≠ DecodeResult.decoded fields) := by
  have hres : pyResolves decodeFrameLocalNames "message" = false := rfl
  refine ⟨?_, fun fields => ?_⟩ <;> simp [decode_frame, h4, hsome, hres]

/-- C4, witness for `decode_frame_handler_namerror` at the gpstime frame of
`FDXProcess_frameTest.test_simple` with a handler registered for its type
`240723`. -/
theorem decode_frame_handler_namerror_witness :
    decode_frame [("240723", fun _ => [("mdesc", FieldValue.str "gpstime")])]
        gpstimeFrame = DecodeResult.nameError "message" :=
  (decode_frame_handler_namerror
    [("240723", fun _ => [("mdesc", FieldValue.str "gpstime")])]
    gpstimeFrame (fun _ => [("mdesc", FieldValue.str "gpstime")])
    (by decide) rfl).1

/-- C5: for every frame of at least 4 bytes whose 3-byte type identifier
has no registered handler, `decode_frame` does not raise: it takes the
warn-and-return-None path (carrying the byte count and hex type identifier
the warning interpolates), raising neither `DataError` nor `NameError`. -/
theorem decode_frame_no_handler (handlers : List (String × Handler))
    (frame : List Nat) (h4 : ¬ frame.length < 4)
    (hnone : lookupHandler handlers (hexlify (frame.take 3)) = none) :
    decode_frame handlers frame =
      DecodeResult.noHandler frame.length (hexlify (frame.take 3)) ∧
    (∀ msg, decode_frame handlers frame ≠ DecodeResult.dataError msg) ∧
    (∀ n, decode_frame handlers frame ≠ DecodeResult.nameError n) := by
  refine ⟨?_, fun msg => ?_, fun n => ?_⟩ <;> simp [decode_frame, h4, hnone]

/-- C5, witness for `decode_frame_no_handler` at the gpstime frame with an
empty registry (the registry `FDXProcess.handlers` of the source is in fact
empty). -/
theorem decode_frame_no_handler_witness :
    decode_frame [] gpstimeFrame =
      DecodeResult.noHandler gpstimeFrame.length (hexlify (gpstimeFrame.take 3)) :=
  (decode_frame_no_handler [] gpstimeFrame (by decide) rfl).1

/-- C1: the claim says concatenating all JunkSpan and Frame values yielded
by `lineprotocol` (with sentinels reinserted) reproduces the input byte
stream. On the stream holding the single well-formed frame `sampleStream`,
the first loop iteration raises `NameError` at the `for` statement of line
125 (the bare name `headers` resolves in no scope), the generator dies, and
the concatenation of everything ever emitted is empty — not the input. -/
theorem lineprotocol_roundtrip_violated :
    lineprotocolLoopBody [] sampleStream =
      LPOutcome.raised "NameError: name headers is not defined" [] ∧
    emittedBytes (lineprotocolLoopBody [] sampleStream) ≠ sampleStream := by
  constructor
  · rfl
  · intro h
    rw [show lineprotocolLoopBody [] sampleStream =
          LPOutcome.raised "NameError: name headers is not defined" [] from rfl] at h
    simp [emittedBytes, emittedOf, sampleStream] at h

/-- C6: the claim says that when a match is confirmed at an offset past the
buffer head, the bytes before it are emitted as a JunkSpan followed by the
frame. The loop body of `lineprotocol` instead raises `NameError` on the
bare name `headers` before any scanning, for every buffer and chunk: no
JunkSpan and no Frame is ever emitted. -/
theorem lineprotocol_junk_never_emitted (buf chunk : List Nat) :
    emittedOf (lineprotocolLoopBody buf chunk) = [] ∧
    lineprotocolLoopBody buf chunk =
      LPOutcome.raised "NameError: name headers is not defined" [] := by
  have h : pyResolves lineprotocolLocalNames "headers" = false := rfl
  constructor <;> simp [lineprotocolLoopBody, h, emittedOf]

/-- C6, witness for `lineprotocol_junk_never_emitted` on a buffer holding
one junk byte followed by a well-formed frame. -/
theorem lineprotocol_junk_never_emitted_witness :
    emittedOf (lineprotocolLoopBody [] (0x00 :: sampleStream)) = [] :=
  (lineprotocol_junk_never_emitted [] (0x00 :: sampleStream)).1

/-- C7: the claim says a failed trailing-sentinel check is not surfaced as
an error and scanning continues past it. The loop body instead surfaces a
`NameError` on every iteration (raised at line 125, before the sentinel
check of line 134 could run) and never completes an iteration, so scanning
never continues past anything and no Frame is ever emitted at all. -/
theorem lineprotocol_resync_never_reached (buf chunk : List Nat) :
    (∃ e es, lineprotocolLoopBody buf chunk = LPOutcome.raised e es) ∧
    (∀ es b2, lineprotocolLoopBody buf chunk ≠ LPOutcome.completed es b2) ∧
    (∀ ev ∈ emittedOf (lineprotocolLoopBody buf chunk),
      ∀ bs, ev ≠ LPEvent.frame bs) := by
  have h : pyResolves lineprotocolLocalNames "headers" = false := rfl
  refine ⟨⟨"NameError: name headers is not defined", [], ?_⟩,
          fun es b2 => ?_, fun ev hev bs => ?_⟩
  · simp [lineprotocolLoopBody, h]
  · simp [lineprotocolLoopBody, h]
  · rw [show lineprotocolLoopBody buf chunk =
        LPOutcome.raised "NameError: name headers is not defined" [] by
        simp [lineprotocolLoopBody, h]] at hev
    simp [emittedOf] at hev

/-- C7, witness for `lineprotocol_resync_never_reached` on a buffer whose
header match is a false positive (the byte after the matched header and
body is 0x7f, not the sentinel 0x81). -/
theorem lineprotocol_resync_never_reached_witness :
    ∃ e es,
      lineprotocolLoopBody []
        [0x81, 0x01, 0x04, 0x02, 0x00, 0x00, 0x00, 0x00, 0x00, 0x00, 0x7f] =
      LPOutcome.raised e es :=
  (lineprotocol_resync_never_reached []
    [0x81, 0x01, 0x04, 0x02, 0x00, 0x00, 0x00, 0x00, 0x00, 0x00, 0x7f]).1

/-- C9: decoding the all-zero "no fix" GPS-position body yields
`mdesc="gpspos"` with latitude and longitude both not-a-number; and for
every body, the gpspos handler reports latitude as not-a-number exactly
when it reports longitude as not-a-number — never one valid coordinate
paired with a NaN. -/
theorem gpspos_nofix_both_nan :
    (lookupField (gpsposHandler gpsposNoFixBody) "mdesc" =
        some (FieldValue.str "gpspos") ∧
     lookupField (gpsposHandler gpsposNoFixBody) "lat" = some FieldValue.nan ∧
     lookupField (gpsposHandler gpsposNoFixBody) "lon" = some FieldValue.nan) ∧
    ∀ body : List Nat,
      (lookupField (gpsposHandler body) "lat" = some FieldValue.nan ↔
       lookupField (gpsposHandler body) "lon" = some FieldValue.nan) := by
  constructor
  · exact ⟨rfl, rfl, rfl⟩
  · intro body
    by_cases h : ((body.drop 2).take 6).all (· == 0)
    · simp [gpsposHandler, h, lookupField]
    · simp [gpsposHandler, h, lookupField]

end FDX
